import Mathlib

/-!
Verification of the multi-source movie-lookup pipeline of the
"do-i-have-this-movie" browser extension.

The JavaScript source is shallowly embedded: each JS function the claims
mention is translated into an executable Lean definition that mirrors the
source line by line.  JS `null`/`undefined` values become `Option`, thrown
errors / rejected promises become `Except String`, and the single-threaded
event-loop semantics lets asynchronous code be modelled by explicit state
passing (every JS `await` is a suspension point, but all state mutations the
claims concern happen between suspension points and are therefore atomic
steps of the model).
-/

namespace DoIHaveThisMovie

/-! ## Fuzzy matcher (src/sources/utils/fuzzy-search.js) -/

/-- JS `s.trim()`: strip leading and trailing whitespace, embedded on the
character list (`Char.isWhitespace` covers the whitespace characters the
sources contain). -/
def jsTrim (s : String) : String :=
  ⟨((s.data.dropWhile Char.isWhitespace).reverse.dropWhile Char.isWhitespace).reverse⟩

/-- JS `s.toLowerCase()`, embedded as per-character lowercasing. -/
def jsToLower (s : String) : String :=
  ⟨s.data.map Char.toLower⟩

/-- JS `s.includes(t)`: `t` occurs as a contiguous substring of `s`,
embedded as decidable infix containment on the character lists. -/
def jsIncludes (s t : String) : Bool :=
  decide (List.IsInfix t.data s.data)

/-- Embeds `fuzzyMatchTitle(searchTerm, itemTitle)`:
`const s1 = searchTerm.toLowerCase().trim(); const s2 = itemTitle.toLowerCase().trim();
return s1 === s2 || s1.includes(s2) || s2.includes(s1);` -/
def fuzzyMatchTitle (searchTerm itemTitle : String) : Bool :=
  let s1 := jsTrim (jsToLower searchTerm)
  let s2 := jsTrim (jsToLower itemTitle)
  s1 == s2 || jsIncludes s1 s2 || jsIncludes s2 s1

/-- Embeds `fuzzyMatchYear(year1, year2)`:
`if (!year1 || !year2) return true; return Math.abs(year1 - year2) <= 1;`
A year is `Option Int` (`none` models `null`/`undefined`/`NaN`).  JS `!year`
is falsiness, which is also true for the number `0`, hence the explicit
`== 0` tests. -/
def fuzzyMatchYear (year1 year2 : Option Int) : Bool :=
  match year1, year2 with
  | some y1, some y2 =>
    if y1 == 0 || y2 == 0 then true
    else (y1 - y2).natAbs ≤ 1
  | _, _ => true

/-- Embeds `fuzzyMatch`: conjunction of the two predicates. -/
def fuzzyMatch (searchTerm itemTitle : String) (searchYear itemYear : Option Int) : Bool :=
  fuzzyMatchTitle searchTerm itemTitle && fuzzyMatchYear searchYear itemYear

/-- C9: The FuzzyMatcher title predicate is symmetric: for every pair of title
strings `a` and `b`, `fuzzyMatchTitle a b = fuzzyMatchTitle b a` (case-insensitive
trimmed equality or containment in either direction). -/
theorem c9_fuzzy_title_symmetric (a b : String) :
    fuzzyMatchTitle a b = fuzzyMatchTitle b a := by
  simp only [fuzzyMatchTitle]
  generalize jsTrim (jsToLower a) = s1
  generalize jsTrim (jsToLower b) = s2
  have h : (s1 == s2) = (s2 == s1) := by
    by_cases hs : s1 = s2
    · rw [hs]
    · have hs2 : ¬ s2 = s1 := fun he => hs he.symm
      simp [beq_iff_eq, hs, hs2]
  rw [h]
  cases jsIncludes s1 s2 <;> cases jsIncludes s2 s1 <;> simp

/-- C10: `fuzzyMatchYear` tests for an absent year using JS falsiness rather
than a null check, so the numeric year 0 is treated as absent: for every year
`y` (including years differing from 0 by more than 1),
`fuzzyMatchYear 0 y = true` and `fuzzyMatchYear y 0 = true`. -/
theorem c10_year_zero_falsy (y : Option Int) :
    fuzzyMatchYear (some 0) y = true ∧ fuzzyMatchYear y (some 0) = true := by
  constructor <;> (cases y with
    | none => rfl
    | some n => simp [fuzzyMatchYear])

/-- C8 counterexample: the years 0 and 5 are both present and differ by more
than 1, yet `fuzzyMatchYear` returns `true`, refuting "when both years are
present it returns true exactly when their absolute difference is at most 1". -/
theorem c8_counterexample :
    fuzzyMatchYear (some 0) (some 5) = true ∧ ((0 : Int) - 5).natAbs > 1 := by
  constructor
  · rfl
  · decide

/-- C8 (amended): the year predicate returns true whenever either year is
absent (`none`) or equal to 0 (JS falsiness); when both years are present and
nonzero it returns true exactly when their absolute difference is at most 1;
in particular `fuzzyMatchYear 2020 none = true`,
`fuzzyMatchYear 2020 2021 = true`, and `fuzzyMatchYear 2020 2022 = false`. -/
theorem c8_year_match_amended :
    (∀ y : Option Int, fuzzyMatchYear none y = true ∧ fuzzyMatchYear y none = true) ∧
    (∀ y : Option Int, fuzzyMatchYear (some 0) y = true ∧ fuzzyMatchYear y (some 0) = true) ∧
    (∀ y1 y2 : Int, y1 ≠ 0 → y2 ≠ 0 →
      (fuzzyMatchYear (some y1) (some y2) = true ↔ (y1 - y2).natAbs ≤ 1)) ∧
    fuzzyMatchYear (some 2020) none = true ∧
    fuzzyMatchYear (some 2020) (some 2021) = true ∧
    fuzzyMatchYear (some 2020) (some 2022) = false := by
  refine ⟨fun y => ⟨?_, ?_⟩, fun y => ⟨?_, ?_⟩, fun y1 y2 h1 h2 => ?_, rfl, by decide, by decide⟩
  · cases y <;> rfl
  · cases y <;> rfl
  · cases y with
    | none => rfl
    | some n => simp [fuzzyMatchYear]
  · cases y with
    | none => rfl
    | some n => simp [fuzzyMatchYear]
  · simp [fuzzyMatchYear, h1, h2]

/-- C8 amended witness: concrete evaluation of the hypothesis-bearing part at
years 2020 and 2022. -/
theorem c8_year_match_amended_witness :
    fuzzyMatchYear (some 2020) (some 2022) = true ↔ ((2020 : Int) - 2022).natAbs ≤ 1 :=
  c8_year_match_amended.2.2.1 2020 2022 (by decide) (by decide)

/-! ## Source adapters (generic model of the BaseSourceAdapter contract)

Concrete subclasses of `BaseSourceAdapter` keep their stored configuration in
`this.config` and expose `getName`, `configure` and `checkMovie`.  For the
registry and aggregator claims the adapter behaviour is generic, so an adapter
is modelled by its name, its current stored configuration, and two pure
behaviour functions: `configureFn` (validation + normalization; `.error`
models a thrown `ConfigError`, `.ok` returns the normalized config that JS
assigns to `this.config`) and `checkMovieFn` (`.error` models a thrown error
or rejected promise observed by the aggregator's `catch`). -/

/-- Credentials: an opaque field-name → value mapping (JS object from
`chrome.storage`). -/
abbrev Creds := List (String × String)

/-- A matched library item `{id, name, year}` as returned by `checkMovie`. -/
structure Movie where
  id : String
  name : String
  year : Option Int
deriving DecidableEq, Repr

/-- The value of a successful `checkMovie` call: `{found, movie?}`. -/
structure CheckResult where
  found : Bool
  movie : Option Movie
deriving DecidableEq, Repr

structure Adapter where
  name : String
  config : Option Creds
  configureFn : Creds → Except String Creds
  checkMovieFn : Option Creds → String → Option Int → Except String CheckResult

/-- Embeds `adapter.configure(credentials)`: on success the normalized copy is stored
in `this.config`; on failure the adapter state is unchanged (all concrete
adapters validate before assigning `this.config`). -/
def Adapter.configure (a : Adapter) (c : Creds) : Except String Adapter :=
  match a.configureFn c with
  | .error e => .error e
  | .ok nc => .ok { a with config := some nc }

/-- Embeds `adapter.checkMovie(title, year)` run against the currently stored
configuration. -/
def Adapter.checkMovie (a : Adapter) (title : String) (year : Option Int) :
    Except String CheckResult :=
  a.checkMovieFn a.config title year

/-! ## SourceRegistry (src/sources/source-registry.js)

`this.adapters` is a JS `Map` (insertion-ordered: `set` of a fresh key
appends, `set` of an existing key updates in place, `delete` removes) and
`this.activeSources` is a JS `Set` (insertion-ordered: `add` of a fresh
element appends, `add` of a present element is a no-op, `delete` removes).
Both are embedded as ordered lists with exactly those operations. -/

/-- JS `Map.get(id)` (the registry wraps it with `|| null`, giving `Option`). -/
def mapGet (m : List (String × Adapter)) (id : String) : Option Adapter :=
  match m.find? (fun p => p.1 == id) with
  | some p => some p.2
  | none => none

/-- JS `Map.set(id, a)`: update in place if present, else append. -/
def mapSet (m : List (String × Adapter)) (id : String) (a : Adapter) :
    List (String × Adapter) :=
  if m.any (fun p => p.1 == id) then
    m.map (fun p => if p.1 == id then (p.1, a) else p)
  else m ++ [(id, a)]

/-- JS `Map.delete(id)`. -/
def mapDelete (m : List (String × Adapter)) (id : String) : List (String × Adapter) :=
  m.filter (fun p => p.1 != id)

/-- JS `Set.add(id)`: append if absent, no-op if present. -/
def setAdd (s : List String) (id : String) : List String :=
  if id ∈ s then s else s ++ [id]

/-- JS `Set.delete(id)`. -/
def setDelete (s : List String) (id : String) : List String :=
  s.filter (fun x => x != id)

/-- The mutable fields of the `SourceRegistry` singleton. -/
structure RegistryState where
  adapters : List (String × Adapter)
  activeSources : List String

/-- Errors thrown by registry operations: `notFound id` models
`new Error('Source "<id>" not found')` (the spec's `NotFoundError`);
`configError msg` models the `ConfigError` propagated unchanged out of
`adapter.configure`. -/
inductive RegError where
  | notFound (id : String)
  | configError (msg : String)
deriving DecidableEq, Repr

namespace SourceRegistry

/-- Embeds `register(id, adapter)`: `this.adapters.set(id, adapter)`. -/
def register (st : RegistryState) (id : String) (adapter : Adapter) : RegistryState :=
  { st with adapters := mapSet st.adapters id adapter }

/-- Embeds `unregister(id)`: `this.adapters.delete(id)`. -/
def unregister (st : RegistryState) (id : String) : RegistryState :=
  { st with adapters := mapDelete st.adapters id }

/-- Embeds `getAdapter(id)`: `this.adapters.get(id) || null`. -/
def getAdapter (st : RegistryState) (id : String) : Option Adapter :=
  mapGet st.adapters id

/-- Embeds `enableSource(id)`.  The JS method throws (`NotFoundError` /
`ConfigError`) or mutates `this`; it is embedded as returning the outcome
together with the registry state after the call, which is unchanged on either
throw because `this.activeSources.add(id)` only runs after
`await adapter.configure(credentials)` returned.  `credStore` embeds
`getSourceCredentials` (the external `chrome.storage` read, with its `|| {}`
default folded in); the in-place mutation of the adapter object by
`configure` is modelled by writing the updated adapter back into the map. -/
def enableSource (st : RegistryState) (credStore : String → Creds) (id : String) :
    Except RegError Unit × RegistryState :=
  match getAdapter st id with
  | none => (.error (.notFound id), st)
  | some adapter =>
    match adapter.configure (credStore id) with
    | .error e => (.error (.configError e), st)
    | .ok adapter2 =>
      (.ok (), { adapters := mapSet st.adapters id adapter2,
                 activeSources := setAdd st.activeSources id })

/-- Embeds `disableSource(id)`: `this.activeSources.delete(id)`. -/
def disableSource (st : RegistryState) (id : String) : RegistryState :=
  { st with activeSources := setDelete st.activeSources id }

/-- Embeds `getActiveSources()`:
`Array.from(this.activeSources).map(id => ({id, adapter: this.getAdapter(id)}))`.
Note the iteration is over the active-id set, and `getAdapter` may yield
`none` (JS `null`) if an active id was unregistered. -/
def getActiveSources (st : RegistryState) : List (String × Option Adapter) :=
  st.activeSources.map (fun id => (id, getAdapter st id))

end SourceRegistry

/-- The ids of `getActiveSources` are exactly the active-id set in its stored
order. -/
theorem getActiveSources_map_fst (st : RegistryState) :
    (SourceRegistry.getActiveSources st).map Prod.fst = st.activeSources := by
  simp [SourceRegistry.getActiveSources, Function.comp_def]

/-- C4: `enableSource(id)` fails with `NotFoundError` when `id` is not
registered and leaves the active set unchanged; when `id` is registered, a
`ConfigError` from `adapter.configure` propagates and the id is not activated
(active set unchanged); on success the id is added to the active set only
after `configure` completed. -/
theorem c4_enableSource_activation (st : RegistryState) (cs : String → Creds) (id : String) :
    (SourceRegistry.getAdapter st id = none →
      SourceRegistry.enableSource st cs id = (.error (.notFound id), st)) ∧
    (∀ a e, SourceRegistry.getAdapter st id = some a →
      a.configure (cs id) = .error e →
      (SourceRegistry.enableSource st cs id).1 = .error (.configError e) ∧
      (SourceRegistry.enableSource st cs id).2.activeSources = st.activeSources ∧
      (st.activeSources.contains id = false →
        (SourceRegistry.enableSource st cs id).2.activeSources.contains id = false)) ∧
    (∀ a a2, SourceRegistry.getAdapter st id = some a →
      a.configure (cs id) = .ok a2 →
      (SourceRegistry.enableSource st cs id).1 = .ok () ∧
      (SourceRegistry.enableSource st cs id).2.activeSources = setAdd st.activeSources id ∧
      (SourceRegistry.enableSource st cs id).2.activeSources.contains id = true) := by
  refine ⟨fun h => ?_, fun a e ha hc => ?_, fun a a2 ha hc => ?_⟩
  · simp [SourceRegistry.enableSource, h]
  · simp [SourceRegistry.enableSource, ha, hc]
  · refine ⟨?_, ?_, ?_⟩
    · simp [SourceRegistry.enableSource, ha, hc]
    · simp [SourceRegistry.enableSource, ha, hc]
    · simp only [SourceRegistry.enableSource, ha, hc, setAdd]
      by_cases hm : id ∈ st.activeSources
      · simp [hm]
      · simp [hm]

/-- An adapter whose `configure` always throws a `ConfigError`. -/
def badAdapter : Adapter :=
  { name := "Bad", config := none,
    configureFn := fun _ => .error "Invalid credentials: API Key is required",
    checkMovieFn := fun _ _ _ => .ok { found := false, movie := none } }

/-- A registry holding only `badAdapter` under id `"bad"`, nothing active. -/
def c4BadState : RegistryState :=
  { adapters := [("bad", badAdapter)], activeSources := [] }

/-- C4 witness: a registry holding one adapter whose `configure` rejects, and
an unknown id.  Evaluates both failure paths of `c4_enableSource_activation`
at concrete inputs. -/
theorem c4_enableSource_activation_witness :
    (SourceRegistry.enableSource
        { adapters := [], activeSources := [] } (fun _ => []) "unknown"
      = (.error (.notFound "unknown"), { adapters := [], activeSources := [] })) ∧
    ((SourceRegistry.enableSource c4BadState (fun _ => []) "bad").2.activeSources.contains "bad"
      = false) := by
  constructor
  · exact (c4_enableSource_activation
      { adapters := [], activeSources := [] } (fun _ => []) "unknown").1 rfl
  · exact ((c4_enableSource_activation c4BadState (fun _ => []) "bad").2.1
      badAdapter "Invalid credentials: API Key is required" rfl rfl).2.2 rfl

/-- A stub adapter whose `configure` accepts any credentials unchanged and
whose `checkMovie` finds nothing. -/
def stubAdapter (n : String) : Adapter :=
  { name := n, config := none,
    configureFn := fun c => .ok c,
    checkMovieFn := fun _ _ _ => .ok { found := false, movie := none } }

/-- A successful `enableSource` appends the id to the active set (JS `Set.add`
semantics). -/
theorem enableSource_ok_activeSources (st : RegistryState) (cs : String → Creds) (id : String)
    (h : (SourceRegistry.enableSource st cs id).1 = .ok ()) :
    (SourceRegistry.enableSource st cs id).2.activeSources = setAdd st.activeSources id := by
  cases hA : SourceRegistry.getAdapter st id with
  | none => simp [SourceRegistry.enableSource, hA] at h
  | some a =>
    cases hc : a.configure (cs id) with
    | error e => simp [SourceRegistry.enableSource, hA, hc] at h
    | ok a2 => simp [SourceRegistry.enableSource, hA, hc]

/-- Modelled from the spec's words for the refinement comparison in C6:
"order is registration order filtered by active-set membership". -/
def getActiveSourcesRegistrationOrder (st : RegistryState) : List (String × Option Adapter) :=
  ((st.adapters.map Prod.fst).filter (fun id => st.activeSources.contains id)).map
    (fun id => (id, SourceRegistry.getAdapter st id))

/-- Registry with adapters registered under `"a"` then `"b"`, nothing active. -/
def c6Registered : RegistryState :=
  SourceRegistry.register
    (SourceRegistry.register { adapters := [], activeSources := [] } "a" (stubAdapter "A"))
    "b" (stubAdapter "B")

/-- State `c6Registered` after enabling `"b"` and then `"a"` (reverse of the
registration order). -/
def c6State : RegistryState :=
  (SourceRegistry.enableSource
    (SourceRegistry.enableSource c6Registered (fun _ => []) "b").2
    (fun _ => []) "a").2

/-- C6 counterexample: with adapters registered as `"a"` then `"b"` but enabled
as `"b"` then `"a"`, `getActiveSources` lists `"b"` before `"a"` — activation
order — while the claimed registration-order-filtered reading lists `"a"`
first.  The claim is false. -/
theorem c6_counterexample :
    (SourceRegistry.getActiveSources c6State).map Prod.fst = ["b", "a"] ∧
    (getActiveSourcesRegistrationOrder c6State).map Prod.fst = ["a", "b"] ∧
    (["b", "a"] : List String) ≠ ["a", "b"] :=
  ⟨rfl, rfl, by decide⟩

/-- C6 (amended): `getActiveSources` returns the active sources in activation
order — the insertion order of the active-id set, i.e. the order in which the
ids were (first) enabled — not registration order: enabling two previously
inactive ids `id1` then `id2` (in whatever order they were registered) makes
`getActiveSources` list `id1` before `id2`, appended to the previously active
ids. -/
theorem c6_active_order_is_enable_order (st : RegistryState) (cs : String → Creds)
    (id1 id2 : String)
    (hne : id1 ≠ id2)
    (ha1 : id1 ∉ st.activeSources)
    (ha2 : id2 ∉ st.activeSources)
    (h1 : (SourceRegistry.enableSource st cs id1).1 = .ok ())
    (h2 : (SourceRegistry.enableSource
            (SourceRegistry.enableSource st cs id1).2 cs id2).1 = .ok ()) :
    (SourceRegistry.getActiveSources
        (SourceRegistry.enableSource
          (SourceRegistry.enableSource st cs id1).2 cs id2).2).map Prod.fst
      = st.activeSources ++ [id1, id2] := by
  rw [getActiveSources_map_fst]
  rw [enableSource_ok_activeSources _ cs id2 h2]
  rw [enableSource_ok_activeSources st cs id1 h1]
  have s1 : setAdd st.activeSources id1 = st.activeSources ++ [id1] := if_neg ha1
  rw [s1]
  have h12 : id2 ∉ st.activeSources ++ [id1] := by
    intro hmem
    rcases List.mem_append.1 hmem with h | h
    · exact ha2 h
    · simp at h
      exact hne h.symm
  rw [show setAdd (st.activeSources ++ [id1]) id2 = (st.activeSources ++ [id1]) ++ [id2]
        from if_neg h12]
  simp

/-- C6 amended witness: concrete registry with registration order `a, b` and
enable order `b, a`; the theorem applied there yields activation order. -/
theorem c6_active_order_is_enable_order_witness :
    (SourceRegistry.getActiveSources
        (SourceRegistry.enableSource
          (SourceRegistry.enableSource c6Registered (fun _ => []) "b").2
          (fun _ => []) "a").2).map Prod.fst
      = c6Registered.activeSources ++ ["b", "a"] :=
  c6_active_order_is_enable_order c6Registered (fun _ => []) "b" "a"
    (by decide) (by decide) (by decide) rfl rfl

/-- Registry where `"a"` was registered, enabled, and then unregistered. -/
def c7State : RegistryState :=
  SourceRegistry.unregister
    (SourceRegistry.enableSource
      (SourceRegistry.register { adapters := [], activeSources := [] } "a" (stubAdapter "A"))
      (fun _ => []) "a").2
    "a"

/-- C7: after `unregister("a")` of an active source, the id is removed from
the adapters map (`getAdapter` yields `none`), but — contrary to the claim —
the id stays in the active set, so `getActiveSources` still yields an entry
for it, with a `null` adapter, and the aggregator iterating that list would
still attempt to query the unregistered source.  This evaluates the code at
the failing input of the C7 code bug. -/
theorem c7_unregistered_source_still_listed :
    SourceRegistry.getAdapter c7State "a" = none ∧
    SourceRegistry.getActiveSources c7State = [("a", none)] :=
  ⟨rfl, rfl⟩

/-! ## Aggregator: `checkAllSources` (src/background.js)

`checkAllSources` fans one query out to every active source and joins with
`Promise.all`.  Single-threaded JS semantics plus join semantics mean the
settled results appear in the order of the `activeSources` array, so the
fan-out is embedded as a `map`.  The aggregator's per-source `try/catch` is
the `Except` match in `checkOneSource`.  The model takes the list of active
`(id, adapter)` pairs (the glossary's active sources: registered, configured
and enabled adapters) and returns, alongside the aggregate, the list of
source ids whose `checkMovie` was invoked — empty when the early return for
an empty active set is taken, one per active source otherwise. -/

/-- A `MediaMatch` entry of the aggregate `results` array.  `movie`/`error`
are `none` when the JS object lacks the field (success entries carry no
`error`, failure entries no `movie`; `result.movie || null` maps an absent
movie to `null`). -/
structure MediaMatch where
  sourceId : String
  sourceName : String
  found : Bool
  movie : Option Movie
  error : Option String
deriving DecidableEq, Repr

/-- The aggregate `{success, results, found}` object. -/
structure AggregateResult where
  success : Bool
  results : List MediaMatch
  found : Bool
deriving DecidableEq, Repr

/-- The per-source async arrow inside `checkAllSources`:
`try { const result = await adapter.checkMovie(title, year);
return {sourceId: id, sourceName: adapter.getName(), found: result.found, movie: result.movie || null}; }
catch (error) { return {sourceId: id, sourceName: adapter.getName(), found: false, error: error.message}; }` -/
def checkOneSource (title : String) (year : Option Int) (id : String) (adapter : Adapter) :
    MediaMatch :=
  match adapter.checkMovie title year with
  | .ok result =>
    { sourceId := id, sourceName := adapter.name, found := result.found,
      movie := result.movie, error := none }
  | .error msg =>
    { sourceId := id, sourceName := adapter.name, found := false,
      movie := none, error := some msg }

/-- Embeds `checkAllSources(title, year)`: early return on an empty active list, else
one `checkOneSource` per active source joined in order, with
`found = sourceResults.some(r => r.found)`. -/
def checkAllSources (title : String) (year : Option Int)
    (activeSources : List (String × Adapter)) : AggregateResult × List String :=
  if activeSources.length == 0 then
    ({ success := true, results := [], found := false }, [])
  else
    let sourceResults := activeSources.map (fun p => checkOneSource title year p.1 p.2)
    ({ success := true, results := sourceResults,
       found := sourceResults.any (fun r => r.found) },
     activeSources.map Prod.fst)

/-- The entry built for a source names that source. -/
theorem checkOneSource_sourceId (title : String) (year : Option Int)
    (id : String) (a : Adapter) : (checkOneSource title year id a).sourceId = id := by
  unfold checkOneSource
  cases a.checkMovie title year <;> rfl

/-- C1: if the active-source set is empty, `checkAllSources` returns
`{found: false, results: []}` immediately and invokes no adapter's
`checkMovie` (empty invocation log); otherwise `results` has exactly one
entry per active source at call time, in order and labelled by its source id,
and `found` equals the disjunction of the per-entry `found` flags. -/
theorem c1_checkAllSources_shape (title : String) (year : Option Int)
    (active : List (String × Adapter)) :
    (active = [] → checkAllSources title year active
        = ({ success := true, results := [], found := false }, [])) ∧
    (checkAllSources title year active).1.results.length = active.length ∧
    ((checkAllSources title year active).1.results).map (fun r => r.sourceId)
      = active.map Prod.fst ∧
    (checkAllSources title year active).1.found
      = ((checkAllSources title year active).1.results).any (fun r => r.found) ∧
    (checkAllSources title year active).2 = active.map Prod.fst := by
  refine ⟨fun h => by subst h; rfl, ?_, ?_, ?_, ?_⟩
  · cases active with
    | nil => rfl
    | cons p ps => simp [checkAllSources]
  · cases active with
    | nil => rfl
    | cons p ps =>
      simp [checkAllSources, List.map_map, Function.comp_def, checkOneSource_sourceId]
  · cases active with
    | nil => rfl
    | cons p ps => simp [checkAllSources]
  · cases active with
    | nil => rfl
    | cons p ps => simp [checkAllSources]

/-- C1 witness: the empty active set returns the empty aggregate with an empty
invocation log, evaluated concretely. -/
theorem c1_checkAllSources_shape_witness :
    checkAllSources "The Matrix" (some 1999) ([] : List (String × Adapter))
      = ({ success := true, results := [], found := false }, []) :=
  (c1_checkAllSources_shape "The Matrix" (some 1999) []).1 rfl

/-- C2: in a non-empty active list, one adapter whose `checkMovie` throws or
rejects yields exactly the `found: false, error: <message>` entry in place,
while every other source's entry is exactly `checkOneSource` of its own
adapter — and a successfully returning adapter's entry carries its own
`found` flag and movie with no error.  A failing source never removes,
blocks, or alters sibling results. -/
theorem c2_failure_isolated (title : String) (year : Option Int)
    (pre post : List (String × Adapter)) (id : String) (a : Adapter) (msg : String)
    (hfail : a.checkMovie title year = .error msg) :
    (checkAllSources title year (pre ++ (id, a) :: post)).1.results
      = pre.map (fun p => checkOneSource title year p.1 p.2)
        ++ ({ sourceId := id, sourceName := a.name, found := false,
              movie := none, error := some msg } : MediaMatch)
          :: post.map (fun p => checkOneSource title year p.1 p.2) ∧
    (∀ id2 a2 r, Adapter.checkMovie a2 title year = .ok r →
      checkOneSource title year id2 a2
        = { sourceId := id2, sourceName := a2.name, found := r.found,
            movie := r.movie, error := none }) := by
  constructor
  · have hlen : ((pre ++ (id, a) :: post).length == 0) = false := by
      simp [List.length_append]
    simp [checkAllSources, hlen, checkOneSource, hfail]
  · intro id2 a2 r h
    simp [checkOneSource, h]

/-- An adapter that reports the query as found with a fixed library item. -/
def foundAdapter : Adapter :=
  { name := "Found", config := none,
    configureFn := fun c => .ok c,
    checkMovieFn := fun _ _ _ =>
      .ok { found := true,
            movie := some { id := "m1", name := "Inception", year := some 2010 } } }

/-- An adapter whose `checkMovie` rejects with a network error. -/
def throwingAdapter : Adapter :=
  { name := "Throwing", config := none,
    configureFn := fun c => .ok c,
    checkMovieFn := fun _ _ _ => .error "Network error" }

/-- C2 witness: two active adapters, one finds the movie and one rejects; the
sibling entry still reports its true result and the failing one carries the
error message. -/
theorem c2_failure_isolated_witness :
    (checkAllSources "Inception" (some 2010)
        [("jellyfin", foundAdapter), ("emby", throwingAdapter)]).1.results
      = [{ sourceId := "jellyfin", sourceName := "Found", found := true,
           movie := some { id := "m1", name := "Inception", year := some 2010 },
           error := none },
         { sourceId := "emby", sourceName := "Throwing", found := false,
           movie := none, error := some "Network error" }] := by
  have h := c2_failure_isolated "Inception" (some 2010)
    [("jellyfin", foundAdapter)] [] "emby" throwingAdapter "Network error" rfl
  have hs := h.2 "jellyfin" foundAdapter
    { found := true, movie := some { id := "m1", name := "Inception", year := some 2010 } } rfl
  simpa [hs] using h.1

/-! ## Concrete adapters: EmbySourceAdapter (src/sources/emby-source-adapter.js)
and LocalSourceAdapter (src/sources/base-source-adapter.js)

Only `configure`, `validateCredentials` and the adapter-local caches are
embedded — the parts the cache-invalidation claim is about.  The Emby adapter
keeps two instance fields, `this.config` and `this.userId` (the user id
fetched lazily by `getUserId` and cached across calls); the Local adapter
keeps `this.config` and `this.fileCache`. -/

/-- The `{valid, errors}` object of `validateCredentials`. -/
structure ValidationResult where
  valid : Bool
  errors : List String
deriving DecidableEq, Repr

/-- Emby credentials `{serverUrl, apiKey}`. -/
structure EmbyCreds where
  serverUrl : String
  apiKey : String
deriving DecidableEq, Repr

/-- The Emby adapter's instance state: `this.config` and the lazily cached
`this.userId`. -/
structure EmbyState where
  config : Option EmbyCreds
  userId : Option String
deriving DecidableEq, Repr

/-- Emby `validateCredentials(config)`: required `serverUrl` that `new URL`
accepts, required `apiKey`.  `new URL(...)` is a browser host API; it is
embedded as the predicate parameter `urlOk` (true iff the constructor does
not throw). -/
def embyValidateCredentials (urlOk : String → Bool) (config : EmbyCreds) : ValidationResult :=
  let urlErrors : List String :=
    if config.serverUrl == "" then ["Server URL is required"]
    else if urlOk config.serverUrl then [] else ["Invalid Server URL"]
  let errors := urlErrors ++ (if config.apiKey == "" then ["API Key is required"] else [])
  { valid := errors.length == 0, errors := errors }

/-- JS `s.replace(/\/$/, '')`: drop one trailing slash if present. -/
def jsStripTrailingSlash (s : String) : String :=
  match s.data.getLast? with
  | some c => if c = '/' then ⟨s.data.dropLast⟩ else s
  | none => s

/-- Emby `configure(credentials)`:
`this.config = { ...credentials, serverUrl: credentials.serverUrl.trim().replace(/\/$/, '') }`.
Note that only `this.config` is assigned: `this.userId` is untouched. -/
def embyConfigure (urlOk : String → Bool) (st : EmbyState) (credentials : EmbyCreds) :
    Except String EmbyState :=
  let validation := embyValidateCredentials urlOk credentials
  if validation.valid then
    .ok { st with config := some { serverUrl := jsStripTrailingSlash (jsTrim credentials.serverUrl),
                                   apiKey := credentials.apiKey } }
  else
    .error ("Invalid credentials: " ++ String.intercalate ", " validation.errors)

/-- Emby `getUserId()`: `if (this.userId) return this.userId;` else fetch
`/Users` and cache `users[0]?.Id`.  `fetchedUserIds` is the id list the
server would currently return; the third component records whether a network
fetch happened. -/
def embyGetUserId (st : EmbyState) (fetchedUserIds : List String) :
    EmbyState × Option String × Bool :=
  match st.userId with
  | some u => (st, some u, false)
  | none =>
    let u := fetchedUserIds.head?
    ({ st with userId := u }, u, true)

/-- A JS value that the local adapter's `configure` compares with
`=== true || === 'true'`: either a boolean or a string. -/
inductive JSBoolish where
  | bool (b : Bool)
  | str (s : String)
deriving DecidableEq, Repr

/-- Local-files credentials `{paths, recursive}` as stored (paths is one
newline-separated string; `recursive` may arrive as a boolean or a string). -/
structure LocalCreds where
  paths : String
  recursive : JSBoolish
deriving DecidableEq, Repr

/-- The local adapter's parsed `this.config`. -/
structure LocalConfig where
  paths : List String
  recursive : Bool
deriving DecidableEq, Repr

/-- The local adapter's instance state: `this.config` and `this.fileCache`
(a Map from path-set key to cached file listing). -/
structure LocalState where
  config : Option LocalConfig
  fileCache : List (String × List String)
deriving DecidableEq, Repr

/-- JS `s.split('\n')` on the character list (empty string gives `[""]`,
like JS). -/
def splitNewlineChars : List Char → List (List Char)
  | [] => [[]]
  | c :: rest =>
    match splitNewlineChars rest with
    | [] => [[]]
    | cur :: done =>
      if c = '\n' then [] :: cur :: done else (c :: cur) :: done

/-- JS `s.split('\n')`. -/
def jsSplitNewline (s : String) : List String :=
  (splitNewlineChars s.data).map (fun l => ⟨l⟩)

/-- Embeds `credentials.paths.split('\n').map(p => p.trim()).filter(p => p)`. -/
def localSplitPaths (s : String) : List String :=
  ((jsSplitNewline s).map jsTrim).filter (fun p => p != "")

/-- Local `validateCredentials(config)`. -/
def localValidateCredentials (config : LocalCreds) : ValidationResult :=
  let errors :=
    if config.paths == "" || jsTrim config.paths == "" then
      ["At least one directory path is required"]
    else if (localSplitPaths config.paths).length == 0 then
      ["At least one directory path is required"]
    else []
  { valid := errors.length == 0, errors := errors }

/-- Local `configure(credentials)`: parses `this.config`, then
`this.fileCache.clear()` — the cache is explicitly invalidated. -/
def localConfigure (st : LocalState) (credentials : LocalCreds) : Except String LocalState :=
  let validation := localValidateCredentials credentials
  if validation.valid then
    .ok { config := some { paths := localSplitPaths credentials.paths,
                           recursive := credentials.recursive == .bool true
                                        || credentials.recursive == .str "true" },
          fileCache := [] }
  else
    .error ("Invalid configuration: " ++ String.intercalate ", " validation.errors)

/-- The Emby adapter state produced by the C5 counterexample
re-configuration. -/
def embyStateAfterReconfig : EmbyState :=
  { config := some { serverUrl := "http://new-server", apiKey := "k2" },
    userId := some "cached-user" }

/-- C5 counterexample: an Emby adapter holding a user id cached under a
previous configuration is successfully re-configured, yet the cached user id
survives, and the next `getUserId` returns the stale id without any network
fetch even though the newly configured server would report a different user.
This refutes "state cached from a previous configuration ... is never reused
after re-configuration". -/
theorem c5_counterexample :
    embyConfigure (fun _ => true)
        { config := some { serverUrl := "http://old-server", apiKey := "k1" },
          userId := some "cached-user" }
        { serverUrl := "http://new-server/", apiKey := "k2" }
      = .ok embyStateAfterReconfig ∧
    embyStateAfterReconfig.userId = some "cached-user" ∧
    embyGetUserId embyStateAfterReconfig ["fresh-user"]
      = (embyStateAfterReconfig, some "cached-user", false) :=
  ⟨rfl, rfl, rfl⟩

/-- C5 (amended): a successful `configure` stores an internal normalized copy
of the credentials (trailing slash stripped from the trimmed `serverUrl`).
`LocalSourceAdapter.configure` invalidates its adapter-local file cache, but
`EmbySourceAdapter.configure` leaves the cached user id exactly as it was, so
that cache survives re-configuration and is reused by the next `getUserId`. -/
theorem c5_configure_normalization_amended :
    (∀ (urlOk : String → Bool) (st : EmbyState) (c : EmbyCreds) (st2 : EmbyState),
      embyConfigure urlOk st c = .ok st2 →
      st2.config = some { serverUrl := jsStripTrailingSlash (jsTrim c.serverUrl),
                          apiKey := c.apiKey } ∧
      st2.userId = st.userId) ∧
    (∀ (st : LocalState) (c : LocalCreds) (st2 : LocalState),
      localConfigure st c = .ok st2 →
      st2.fileCache = [] ∧
      st2.config = some { paths := localSplitPaths c.paths,
                          recursive := c.recursive == .bool true
                                       || c.recursive == .str "true" }) := by
  constructor
  · intro urlOk st c st2 h
    simp only [embyConfigure] at h
    by_cases hv : (embyValidateCredentials urlOk c).valid = true
    · rw [if_pos hv] at h
      cases h
      exact ⟨rfl, rfl⟩
    · rw [if_neg hv] at h
      cases h
  · intro st c st2 h
    simp only [localConfigure] at h
    by_cases hv : (localValidateCredentials c).valid = true
    · rw [if_pos hv] at h
      cases h
      exact ⟨rfl, rfl⟩
    · rw [if_neg hv] at h
      cases h

/-- C5 amended witness: concrete re-configurations of both adapters
(`serverUrl` with a trailing slash; a two-line `paths` field and a dirty file
cache). -/
theorem c5_configure_normalization_amended_witness :
    (({ config := some { serverUrl := "http://x", apiKey := "k" },
        userId := some "u0" } : EmbyState).config
        = some { serverUrl := jsStripTrailingSlash (jsTrim "http://x/"), apiKey := "k" } ∧
      ({ config := some { serverUrl := "http://x", apiKey := "k" },
         userId := some "u0" } : EmbyState).userId
        = (some "u0" : Option String)) ∧
    (({ config := some { paths := ["/movies"], recursive := true },
        fileCache := [] } : LocalState).fileCache = [] ∧
      ({ config := some { paths := ["/movies"], recursive := true },
         fileCache := [] } : LocalState).config
        = some { paths := localSplitPaths "/movies\n", recursive := true }) :=
  ⟨c5_configure_normalization_amended.1 (fun _ => true)
      { config := none, userId := some "u0" } { serverUrl := "http://x/", apiKey := "k" }
      { config := some { serverUrl := "http://x", apiKey := "k" }, userId := some "u0" } rfl,
   c5_configure_normalization_amended.2
      { config := none, fileCache := [("p", ["f"])] }
      { paths := "/movies\n", recursive := .bool true }
      { config := some { paths := ["/movies"], recursive := true }, fileCache := [] } rfl⟩

/-! ## Extraction pipeline: `processItems` (src/content.js)

Each mutation-observer callback runs `processItems(adapter)`, which loops over
the adapter's selectors, queries the current DOM for each, and for every
matched element: skips it if `item.dataset.jellyfinChecked` is set, otherwise
sets that marker *synchronously*, extracts title/year, skips falsy titles,
and sends the `CHECK_MOVIE` query.  There is no `await` between the marker
test and the marker write, so on the single JS thread the
test-mark-extract-dispatch sequence for one element is atomic; the embedding
makes it one step.  DOM elements are identities (`Nat`); the persistent
`dataset` markers are the `List Nat` component threaded through scans; the
queries sent with `chrome.runtime.sendMessage` are collected in a dispatch
log. -/

/-- A site `PageAdapter` as `processItems` uses it: `extractTitle` returns
`none` for JS `null`/`undefined`; `extractYear` likewise. -/
structure PageAdapter where
  extractTitle : Nat → Option String
  extractYear : Nat → Option Int

/-- One `CHECK_MOVIE` message `{title: title.trim(), year}` sent for an
element. -/
structure Dispatch where
  elem : Nat
  title : String
  year : Option Int
deriving DecidableEq, Repr

/-- JS truthiness of the extracted title (`if (!title) continue`): false for
`null`/`undefined` and for the empty string. -/
def jsTruthyTitle : Option String → Bool
  | none => false
  | some t => t != ""

/-- The body of the inner `for (const item of items)` loop for one element,
acting on (marker set, dispatch log). -/
def processItem (adapter : PageAdapter) (acc : List Nat × List Dispatch) (item : Nat) :
    List Nat × List Dispatch :=
  if item ∈ acc.1 then acc
  else
    let marked := item :: acc.1
    match adapter.extractTitle item with
    | none => (marked, acc.2)
    | some title =>
      if title == "" then (marked, acc.2)
      else (marked, acc.2 ++ [{ elem := item, title := jsTrim title,
                                year := adapter.extractYear item }])

/-- The two nested loops of `processItems` (over selectors, then over the
elements each selector currently matches), from an arbitrary starting
accumulator.  `doc` is the DOM snapshot: per selector, the element list
`document.querySelectorAll(selector)` returns. -/
def processItemsFrom (adapter : PageAdapter) (doc : List (List Nat))
    (acc : List Nat × List Dispatch) : List Nat × List Dispatch :=
  doc.foldl (fun a items => items.foldl (processItem adapter) a) acc

/-- Embeds `processItems(adapter)` for one mutation event: starts from the current
marker set with an empty log of newly sent queries. -/
def processItems (adapter : PageAdapter) (doc : List (List Nat)) (marked : List Nat) :
    List Nat × List Dispatch :=
  processItemsFrom adapter doc (marked, [])

/-- A whole page lifetime: a sequence of mutation events, each seeing its own
DOM snapshot, starting from a fresh document (no markers). -/
def runScans (adapter : PageAdapter) (docs : List (List (List Nat))) :
    List Nat × List Dispatch :=
  docs.foldl (fun acc doc => processItemsFrom adapter doc acc) ([], [])

/-- Number of queries dispatched for element `e` in a log. -/
def countFor (e : Nat) (log : List Dispatch) : Nat :=
  (log.filter (fun d => d.elem == e)).length

theorem countFor_append (e : Nat) (l1 l2 : List Dispatch) :
    countFor e (l1 ++ l2) = countFor e l1 + countFor e l2 := by
  simp [countFor, List.filter_append]

/-- Any predicate preserved by each fold step holds of the fold. -/
theorem foldl_preserves {α : Type u1} {β : Type u2} {P : α → Prop} {f : α → β → α}
    (hf : ∀ a b, P a → P (f a b)) : ∀ (l : List β) (a : α), P a → P (l.foldl f a)
  | [], _, h => h
  | b :: l, a, h => foldl_preserves hf l (f a b) (hf a b h)

/-- An already-marked element is skipped entirely. -/
theorem processItem_of_mem (adapter : PageAdapter) (acc : List Nat × List Dispatch)
    (item : Nat) (h : item ∈ acc.1) : processItem adapter acc item = acc := by
  unfold processItem
  rw [if_pos h]

/-- The marker set after one element: unchanged if already marked, else the
element is added — in both cases before the query would be sent. -/
theorem processItem_fst (adapter : PageAdapter) (acc : List Nat × List Dispatch) (item : Nat) :
    (processItem adapter acc item).1 = if item ∈ acc.1 then acc.1 else item :: acc.1 := by
  unfold processItem
  by_cases hm : item ∈ acc.1
  · rw [if_pos hm, if_pos hm]
  · rw [if_neg hm, if_neg hm]
    cases adapter.extractTitle item with
    | none => rfl
    | some t =>
      dsimp only
      split <;> rfl

theorem processItem_fst_mono (adapter : PageAdapter) (acc : List Nat × List Dispatch)
    (item x : Nat) (h : x ∈ acc.1) : x ∈ (processItem adapter acc item).1 := by
  rw [processItem_fst]
  by_cases hm : item ∈ acc.1
  · rwa [if_pos hm]
  · rw [if_neg hm]
    exact List.mem_cons_of_mem _ h

theorem processItem_marks_self (adapter : PageAdapter) (acc : List Nat × List Dispatch)
    (item : Nat) : item ∈ (processItem adapter acc item).1 := by
  rw [processItem_fst]
  by_cases hm : item ∈ acc.1
  · rwa [if_pos hm]
  · rw [if_neg hm]
    exact List.mem_cons_self _ _

theorem foldl_processItem_fst_mono (adapter : PageAdapter) :
    ∀ (items : List Nat) (acc : List Nat × List Dispatch) (x : Nat),
      x ∈ acc.1 → x ∈ (items.foldl (processItem adapter) acc).1
  | [], _, _, h => h
  | i :: items, acc, x, h =>
    foldl_processItem_fst_mono adapter items _ x (processItem_fst_mono adapter acc i x h)

theorem processItemsFrom_fst_mono (adapter : PageAdapter) (doc : List (List Nat)) :
    ∀ (acc : List Nat × List Dispatch) (x : Nat),
      x ∈ acc.1 → x ∈ (processItemsFrom adapter doc acc).1 := by
  induction doc with
  | nil => intro acc x h; exact h
  | cons items doc ih =>
    intro acc x h
    exact ih _ x (foldl_processItem_fst_mono adapter items acc x h)

/-- Every element a scan saw ends up marked. -/
theorem foldl_processItem_marks (adapter : PageAdapter) (items : List Nat) :
    ∀ (acc : List Nat × List Dispatch) (x : Nat),
      x ∈ items → x ∈ (items.foldl (processItem adapter) acc).1 := by
  induction items with
  | nil => intro acc x h; exact absurd h (List.not_mem_nil x)
  | cons i items ih =>
    intro acc x h
    rcases List.mem_cons.1 h with rfl | h2
    · exact foldl_processItem_fst_mono adapter items _ x (processItem_marks_self adapter acc x)
    · exact ih _ x h2

theorem processItemsFrom_marks (adapter : PageAdapter) (doc : List (List Nat)) :
    ∀ (acc : List Nat × List Dispatch) (x : Nat) (items : List Nat),
      items ∈ doc → x ∈ items → x ∈ (processItemsFrom adapter doc acc).1 := by
  induction doc with
  | nil => intro acc x items h _; exact absurd h (List.not_mem_nil items)
  | cons items0 doc ih =>
    intro acc x items h hx
    rcases List.mem_cons.1 h with rfl | h2
    · exact processItemsFrom_fst_mono adapter doc _ x
        (foldl_processItem_marks adapter items acc x hx)
    · exact ih _ x items h2 hx

/-- A scan in which every matched element is already marked does nothing. -/
theorem foldl_processItem_of_marked (adapter : PageAdapter) (items : List Nat) :
    ∀ (acc : List Nat × List Dispatch),
      (∀ x ∈ items, x ∈ acc.1) → items.foldl (processItem adapter) acc = acc := by
  induction items with
  | nil => intro acc _; rfl
  | cons i items ih =>
    intro acc h
    rw [List.foldl_cons, processItem_of_mem adapter acc i (h i (List.mem_cons_self _ _))]
    exact ih acc (fun x hx => h x (List.mem_cons_of_mem _ hx))

theorem processItemsFrom_of_marked (adapter : PageAdapter) (doc : List (List Nat)) :
    ∀ (acc : List Nat × List Dispatch),
      (∀ items ∈ doc, ∀ x ∈ items, x ∈ acc.1) → processItemsFrom adapter doc acc = acc := by
  induction doc with
  | nil => intro acc _; rfl
  | cons items doc ih =>
    intro acc h
    show processItemsFrom adapter doc (items.foldl (processItem adapter) acc) = acc
    rw [foldl_processItem_of_marked adapter items acc (h items (List.mem_cons_self _ _))]
    exact ih acc (fun its hits => h its (List.mem_cons_of_mem _ hits))

/-- Full case analysis of one element step: skipped because already marked;
marked but skipped for a falsy (absent/empty) title; or marked and
dispatched. -/
theorem processItem_snd_cases (adapter : PageAdapter) (acc : List Nat × List Dispatch)
    (item : Nat) :
    processItem adapter acc item = acc ∨
    (item ∉ acc.1 ∧ jsTruthyTitle (adapter.extractTitle item) = false ∧
      processItem adapter acc item = (item :: acc.1, acc.2)) ∨
    (item ∉ acc.1 ∧ ∃ t, adapter.extractTitle item = some t ∧ (t == "") = false ∧
      processItem adapter acc item
        = (item :: acc.1, acc.2 ++ [{ elem := item, title := jsTrim t,
                                      year := adapter.extractYear item }])) := by
  by_cases hm : item ∈ acc.1
  · exact Or.inl (processItem_of_mem adapter acc item hm)
  · cases ht : adapter.extractTitle item with
    | none =>
      refine Or.inr (Or.inl ⟨hm, rfl, ?_⟩)
      simp only [processItem, if_neg hm, ht]
    | some t =>
      by_cases hte : (t == "") = true
      · refine Or.inr (Or.inl ⟨hm, ?_, ?_⟩)
        · have hts : t = "" := eq_of_beq hte
          simp [jsTruthyTitle, hts]
        · simp only [processItem, if_neg hm, ht]
          rw [if_pos hte]
      · have htf : (t == "") = false := by
          revert hte
          cases (t == "") <;> simp
        refine Or.inr (Or.inr ⟨hm, t, rfl, htf, ?_⟩)
        simp only [processItem, if_neg hm, ht]
        rw [if_neg hte]

/-- History invariant of the pipeline state: at most one dispatch per element,
no dispatch for an unmarked element, and every dispatched element has a
truthy title and carries its marker. -/
def PipelineInv (adapter : PageAdapter) (acc : List Nat × List Dispatch) : Prop :=
  (∀ e, countFor e acc.2 ≤ 1) ∧
  (∀ e, e ∉ acc.1 → countFor e acc.2 = 0) ∧
  (∀ d ∈ acc.2, jsTruthyTitle (adapter.extractTitle d.elem) = true ∧ d.elem ∈ acc.1)

theorem pipelineInv_processItem (adapter : PageAdapter) (acc : List Nat × List Dispatch)
    (item : Nat) (h : PipelineInv adapter acc) :
    PipelineInv adapter (processItem adapter acc item) := by
  obtain ⟨h1, h2, h3⟩ := h
  rcases processItem_snd_cases adapter acc item with heq | ⟨hm, _, heq⟩ | ⟨hm, t, ht, htf, heq⟩
  · rw [heq]
    exact ⟨h1, h2, h3⟩
  · rw [heq]
    refine ⟨h1, fun e he => h2 e (fun hx => he (List.mem_cons_of_mem _ hx)), fun d hd => ?_⟩
    exact ⟨(h3 d hd).1, List.mem_cons_of_mem _ (h3 d hd).2⟩
  · rw [heq]
    refine ⟨?_, ?_, ?_⟩
    · intro e
      rw [countFor_append]
      by_cases he : e = item
      · subst he
        rw [h2 e hm]
        simp [countFor]
      · have hb : (item == e) = false := beq_eq_false_iff_ne.mpr (fun hh => he hh.symm)
        have hz : countFor e [(⟨item, jsTrim t, adapter.extractYear item⟩ : Dispatch)] = 0 := by
          simp [countFor, hb]
        rw [hz]
        simpa using h1 e
    · intro e he
      have hne : e ≠ item := fun hx => he (hx ▸ List.mem_cons_self _ _)
      have hnm : e ∉ acc.1 := fun hx => he (List.mem_cons_of_mem _ hx)
      have hb : (item == e) = false := beq_eq_false_iff_ne.mpr (fun hh => hne hh.symm)
      rw [countFor_append, h2 e hnm]
      simp [countFor, hb]
    · intro d hd
      rcases List.mem_append.1 hd with hda | hdb
      · exact ⟨(h3 d hda).1, List.mem_cons_of_mem _ (h3 d hda).2⟩
      · have hd1 : d = (⟨item, jsTrim t, adapter.extractYear item⟩ : Dispatch) := by
          simpa using hdb
        subst hd1
        refine ⟨?_, List.mem_cons_self _ _⟩
        rw [ht]
        simp only [jsTruthyTitle, bne_iff_ne, ne_eq]
        exact beq_eq_false_iff_ne.mp htf

/-- Relative invariant: elements marked before a scan stay marked and are
never dispatched by that scan. -/
def FreshInv (m0 : List Nat) (acc : List Nat × List Dispatch) : Prop :=
  (∀ x ∈ m0, x ∈ acc.1) ∧ (∀ d ∈ acc.2, d.elem ∉ m0)

theorem freshInv_processItem (adapter : PageAdapter) (m0 : List Nat)
    (acc : List Nat × List Dispatch) (item : Nat) (h : FreshInv m0 acc) :
    FreshInv m0 (processItem adapter acc item) := by
  obtain ⟨hsub, hfresh⟩ := h
  rcases processItem_snd_cases adapter acc item with heq | ⟨hm, _, heq⟩ | ⟨hm, t, ht, htf, heq⟩
  · rw [heq]
    exact ⟨hsub, hfresh⟩
  · rw [heq]
    exact ⟨fun x hx => List.mem_cons_of_mem _ (hsub x hx), hfresh⟩
  · rw [heq]
    refine ⟨fun x hx => List.mem_cons_of_mem _ (hsub x hx), fun d hd => ?_⟩
    rcases List.mem_append.1 hd with hda | hdb
    · exact hfresh d hda
    · have hd1 : d = (⟨item, jsTrim t, adapter.extractYear item⟩ : Dispatch) := by
        simpa using hdb
      subst hd1
      intro hmem
      exact hm (hsub item hmem)

theorem pipelineInv_processItemsFrom (adapter : PageAdapter) (doc : List (List Nat))
    (acc : List Nat × List Dispatch) (h : PipelineInv adapter acc) :
    PipelineInv adapter (processItemsFrom adapter doc acc) :=
  foldl_preserves (fun a items ha =>
    foldl_preserves (fun a2 i ha2 => pipelineInv_processItem adapter a2 i ha2) items a ha)
    doc acc h

theorem pipelineInv_start (adapter : PageAdapter) (m : List Nat) :
    PipelineInv adapter (m, []) :=
  ⟨fun e => by simp [countFor], fun e _ => by simp [countFor],
   fun d hd => absurd hd (List.not_mem_nil d)⟩

theorem pipelineInv_runScans (adapter : PageAdapter) (docs : List (List (List Nat))) :
    PipelineInv adapter (runScans adapter docs) :=
  foldl_preserves (fun a doc ha => pipelineInv_processItemsFrom adapter doc a ha)
    docs ([], []) (pipelineInv_start adapter [])

theorem freshInv_processItems (adapter : PageAdapter) (doc : List (List Nat)) (m : List Nat) :
    FreshInv m (processItems adapter doc m) :=
  foldl_preserves (fun a items ha =>
    foldl_preserves (fun a2 i ha2 => freshInv_processItem adapter m a2 i ha2) items a ha)
    doc (m, []) ⟨fun x hx => hx, fun d hd => absurd hd (List.not_mem_nil d)⟩

/-- A second scan over an unchanged DOM (two mutation events, no DOM change)
does nothing: the state is unchanged and no query is dispatched. -/
theorem processItems_twice (adapter : PageAdapter) (doc : List (List Nat)) (m : List Nat) :
    processItems adapter doc ((processItems adapter doc m).1)
      = ((processItems adapter doc m).1, []) := by
  unfold processItems
  apply processItemsFrom_of_marked
  intro items hits x hx
  exact processItemsFrom_marks adapter doc (m, []) x items hits hx

/-- C3: for every element matched by the page adapter's selectors, the
pipeline dispatches at most one query over the element's lifetime (any
sequence of mutation-event scans): each dispatched element carries its
`Processed` marker in the same atomic step (before the asynchronous query is
in the log, the element is in the marker set); a second scan with no DOM
change dispatches nothing; a matched element is always marked, even when its
`extractTitle` is null/empty — in which case it is never dispatched at all
(only truthy titles ever appear in the log); and an element already marked
before a scan receives no further dispatch from it. -/
theorem c3_exactly_one_query (adapter : PageAdapter) (docs : List (List (List Nat)))
    (e : Nat) :
    countFor e (runScans adapter docs).2 ≤ 1 ∧
    (∀ d ∈ (runScans adapter docs).2,
        jsTruthyTitle (adapter.extractTitle d.elem) = true ∧
        d.elem ∈ (runScans adapter docs).1) ∧
    (∀ doc m, processItems adapter doc ((processItems adapter doc m).1)
        = ((processItems adapter doc m).1, [])) ∧
    (∀ doc m items, items ∈ doc → e ∈ items → e ∈ (processItems adapter doc m).1) ∧
    (∀ doc m d, d ∈ (processItems adapter doc m).2 → d.elem ∉ m) :=
  ⟨(pipelineInv_runScans adapter docs).1 e,
   fun d hd => (pipelineInv_runScans adapter docs).2.2 d hd,
   fun doc m => processItems_twice adapter doc m,
   fun doc m items hits he => processItemsFrom_marks adapter doc (m, []) e items hits he,
   fun doc m d hd => (freshInv_processItems adapter doc m).2 d hd⟩

/-- A small concrete page adapter: element 1 has a padded title, element 2 an
empty title, element 3 none. -/
def c3Adapter : PageAdapter :=
  { extractTitle := fun n =>
      if n == 1 then some " The Matrix " else if n == 2 then some "" else none,
    extractYear := fun n => if n == 1 then some 1999 else none }

/-- C3 witness: two identical scans of a three-element DOM; element 1 is
queried at most once and ends marked. -/
theorem c3_exactly_one_query_witness :
    countFor 1 (runScans c3Adapter [[[1, 2, 3]], [[1, 2, 3]]]).2 ≤ 1 ∧
    1 ∈ (processItems c3Adapter [[1, 2, 3]] []).1 :=
  ⟨(c3_exactly_one_query c3Adapter [[[1, 2, 3]], [[1, 2, 3]]] 1).1,
   (c3_exactly_one_query c3Adapter [[[1, 2, 3]], [[1, 2, 3]]] 1).2.2.2.1
     [[1, 2, 3]] [] [1, 2, 3] (List.mem_singleton.mpr rfl) (by decide)⟩

end DoIHaveThisMovie
